import Mathlib

/-!
Shallow embedding of the `gql-inspect` crate (src/gql-inspect/src/lib.rs):
the GraphQL introspection schema model and the SDL renderer
(`GQLIntrospector::build`, `build_implements_interface_map`, the per-kind
`write_*` emitters, `format_type`, and `write`).

Rust `Option<T>` becomes `Option`, `Vec<T>` becomes `List`, `String`
becomes `String`.  A Rust `&mut String` accumulator (`sb`) becomes explicit
string passing: each writer takes the accumulated string and returns the
new one.  A possible panic (`Option::unwrap` on `None`) is modelled by an
`Option` result, `none` meaning the call panics.  A `Result<T, Box<dyn
Error>>` becomes `Except String T` carrying the error message.
-/

namespace GQLInspect

/-- Embeds `struct Value` (one enum member) from src/gql-inspect/src/lib.rs. -/
structure GValue where
  name : Option String
  description : Option String
  isDeprecated : Option Bool
  deprecationReason : Option String

mutual

/-- Embeds `struct Type` from src/gql-inspect/src/lib.rs: one named GraphQL
type definition or type reference, every field optional. -/
inductive GType where
  | mk
    (kind : Option String)
    (name : Option String)
    (description : Option String)
    (fields : Option (List GField))
    (inputFields : Option (List GField))
    (interfaces : Option (List GType))
    (enumValues : Option (List GValue))
    (possibleTypes : Option (List GType))
    (ofType : Option GType)

/-- Embeds `struct Field` from src/gql-inspect/src/lib.rs (arguments are
themselves `Field`-shaped). -/
inductive GField where
  | mk
    (name : Option String)
    (description : Option String)
    (fieldType : Option GType)
    (defaultValue : Option String)
    (isDeprecated : Option Bool)
    (deprecationReason : Option String)
    (args : Option (List GField))

end

def GType.kind : GType → Option String
  | .mk k _ _ _ _ _ _ _ _ => k

def GType.name : GType → Option String
  | .mk _ n _ _ _ _ _ _ _ => n

def GType.fields : GType → Option (List GField)
  | .mk _ _ _ f _ _ _ _ _ => f

def GType.inputFields : GType → Option (List GField)
  | .mk _ _ _ _ i _ _ _ _ => i

def GType.interfaces : GType → Option (List GType)
  | .mk _ _ _ _ _ i _ _ _ => i

def GType.enumValues : GType → Option (List GValue)
  | .mk _ _ _ _ _ _ e _ _ => e

def GType.possibleTypes : GType → Option (List GType)
  | .mk _ _ _ _ _ _ _ p _ => p

def GType.ofType : GType → Option GType
  | .mk _ _ _ _ _ _ _ _ o => o

def GField.name : GField → Option String
  | .mk n _ _ _ _ _ _ => n

def GField.fieldType : GField → Option GType
  | .mk _ _ t _ _ _ _ => t

def GField.args : GField → Option (List GField)
  | .mk _ _ _ _ _ _ a => a

/-- Embeds `GQLIntrospector::format_type` (src/gql-inspect/src/lib.rs
lines 400-418): recursively format a type reference. -/
def formatType : GType → String
  | .mk kind name _ _ _ _ _ _ ofT =>
    match ofT with
    | some inner =>
      if kind = some "LIST" then "[" ++ formatType inner ++ "]"
      else if kind = some "NON_NULL" then formatType inner ++ "!"
      else formatType inner
    | none =>
      match name with
      | some n => n
      | none => ""

/-- A type reference carrying only `kind`, `name`, `ofType` (the shape the
introspection query produces for type references). -/
def tyRef (kind name : Option String) (ofT : Option GType) : GType :=
  .mk kind name none none none none none none ofT

/-- Embeds `struct Schema` from src/gql-inspect/src/lib.rs. -/
structure Schema where
  types : List GType

/-- Embeds `struct IntrospectionResult` from src/gql-inspect/src/lib.rs. -/
structure IntrospectionResult where
  schema : Schema

/-- Embeds `struct GQLIntrospector` from src/gql-inspect/src/lib.rs (the
`HashMap<String, String>` of headers becomes an association list; it is
never read by `build` or `write`). -/
structure GQLIntrospector where
  headers : List (String × String)
  introspectionResult : Option IntrospectionResult
  schema : String

/-- The implements-index: `HashMap<String, Vec<String>>` modelled as an
association list with at most one entry per key. -/
abbrev ImplementsMap := List (String × List String)

/-- Models `HashMap::get`: look the key up. -/
def mapGet (m : ImplementsMap) (k : String) : Option (List String) :=
  match m with
  | [] => none
  | (k2, v) :: rest => if k2 = k then some v else mapGet rest k

/-- Models `map.entry(k).or_default().push(v)`: append `v` to the entry for `k`,
creating it if absent. -/
def mapPush (m : ImplementsMap) (k : String) (v : String) : ImplementsMap :=
  match m with
  | [] => [(k, [v])]
  | (k2, vs) :: rest =>
    if k2 = k then (k2, vs ++ [v]) :: rest
    else (k2, vs) :: mapPush rest k v

/-- Embeds the inner `for iface in interfaces` loop of
`build_implements_interface_map` (src/gql-inspect/src/lib.rs line 285-287).
Each iteration performs `t.name.clone().unwrap()` and
`iface.name.clone().unwrap()`; `none` models the panic when either
`unwrap` hits a `None`. -/
def pushIfaceEntries (m : ImplementsMap) (tname : Option String) :
    List GType → Option ImplementsMap
  | [] => some m
  | iface :: rest =>
    match tname with
    | none => none
    | some tn =>
      match iface.name with
      | none => none
      | some inm => pushIfaceEntries (mapPush m tn inm) tname rest

/-- Embeds the outer loop of `build_implements_interface_map`
(src/gql-inspect/src/lib.rs lines 283-289). -/
def buildImplementsInterfaceMapAux : List GType → ImplementsMap → Option ImplementsMap
  | [], m => some m
  | t :: rest, m =>
    match t.interfaces with
    | none => buildImplementsInterfaceMapAux rest m
    | some ifaces =>
      match pushIfaceEntries m t.name ifaces with
      | none => none
      | some m2 => buildImplementsInterfaceMapAux rest m2

/-- Embeds `GQLIntrospector::build_implements_interface_map`
(src/gql-inspect/src/lib.rs lines 281-291); `none` models a panic. -/
def buildImplementsInterfaceMap (introspection : IntrospectionResult) :
    Option ImplementsMap :=
  buildImplementsInterfaceMapAux introspection.schema.types []

/-- Embeds the indexed `for (i, arg) in args.iter().enumerate()` loop of
`write_field` (src/gql-inspect/src/lib.rs lines 381-390).  `fieldType` is
the enclosing field's `field_type` — exactly what the source passes to
`format_type` for every argument. -/
def writeArgsAux (sb : String) (fieldType : Option GType) :
    List GField → Nat → String
  | [], _ => sb
  | arg :: rest, i =>
    let sb := if i > 0 then sb ++ ", " else sb
    let sb :=
      match arg.name, fieldType with
      | some argName, some ft => sb ++ argName ++ ": " ++ formatType ft
      | _, _ => sb
    writeArgsAux sb fieldType rest (i + 1)

/-- Embeds `GQLIntrospector::write_field` (src/gql-inspect/src/lib.rs
lines 375-398). -/
def writeField (sb : String) (field : GField) : String :=
  match field.name with
  | none => sb
  | some name =>
    let sb := sb ++ "  " ++ name
    let sb :=
      match field.args with
      | some args =>
        if args.length > 0 then
          let sb := sb ++ "("
          let sb := writeArgsAux sb field.fieldType args 0
          sb ++ ")"
        else sb
      | none => sb
    match field.fieldType with
    | some fieldType => sb ++ ": " ++ formatType fieldType ++ "\n"
    | none => sb

/-- Embeds `GQLIntrospector::write_object_type` (src/gql-inspect/src/lib.rs
lines 293-308). -/
def writeObjectType (sb : String) (t : GType)
    (implementsInterfaceMap : ImplementsMap) : String :=
  match t.name with
  | none => sb
  | some name =>
    let sb := sb ++ "type " ++ name
    let sb :=
      match mapGet implementsInterfaceMap name with
      | some implements => sb ++ " implements " ++ String.intercalate " & " implements
      | none => sb
    let sb := sb ++ " \x7b\n"
    let sb :=
      match t.fields with
      | some fields => fields.foldl writeField sb
      | none => sb
    sb ++ "\x7d\n\n"

/-- Embeds `GQLIntrospector::write_enum_type` (src/gql-inspect/src/lib.rs
lines 310-322). -/
def writeEnumType (sb : String) (t : GType) : String :=
  match t.name with
  | none => sb
  | some name =>
    let sb := sb ++ "enum " ++ name ++ " \x7b\n"
    let sb :=
      match t.enumValues with
      | some enumValues =>
        enumValues.foldl
          (fun sb v =>
            match v.name with
            | some valueName => sb ++ "  " ++ valueName ++ "\n"
            | none => sb)
          sb
      | none => sb
    sb ++ "\x7d\n\n"

/-- Embeds `GQLIntrospector::write_scalar_type` (src/gql-inspect/src/lib.rs
lines 324-328). -/
def writeScalarType (sb : String) (t : GType) : String :=
  match t.name with
  | none => sb
  | some name => sb ++ "scalar " ++ name ++ "\n\n"

/-- Embeds `GQLIntrospector::write_interface_type` (src/gql-inspect/src/lib.rs
lines 330-340). -/
def writeInterfaceType (sb : String) (t : GType) : String :=
  match t.name with
  | none => sb
  | some name =>
    let sb := sb ++ "interface " ++ name ++ " \x7b\n"
    let sb :=
      match t.fields with
      | some fields => fields.foldl writeField sb
      | none => sb
    sb ++ "\x7d\n\n"

/-- Embeds `GQLIntrospector::write_input_object_type`
(src/gql-inspect/src/lib.rs lines 342-356). -/
def writeInputObjectType (sb : String) (t : GType) : String :=
  match t.name with
  | none => sb
  | some name =>
    let sb := sb ++ "input " ++ name ++ " \x7b\n"
    let sb :=
      match t.inputFields with
      | some inputFields =>
        inputFields.foldl
          (fun sb inputField =>
            match inputField.name, inputField.fieldType with
            | some inputFieldName, some fieldType =>
              sb ++ "  " ++ inputFieldName ++ ": " ++ formatType fieldType ++ "\n"
            | _, _ => sb)
          sb
      | none => sb
    sb ++ "\x7d\n\n"

/-- Embeds the indexed `for (i, possible_type)` loop of `write_union_type`
(src/gql-inspect/src/lib.rs lines 362-369). -/
def writeUnionMembersAux (sb : String) : List GType → Nat → String
  | [], _ => sb
  | pt :: rest, i =>
    let sb := if i > 0 then sb ++ " | " else sb
    let sb :=
      match pt.name with
      | some possibleTypeName => sb ++ possibleTypeName
      | none => sb
    writeUnionMembersAux sb rest (i + 1)

/-- Embeds `GQLIntrospector::write_union_type` (src/gql-inspect/src/lib.rs
lines 358-373). -/
def writeUnionType (sb : String) (t : GType) : String :=
  match t.name with
  | none => sb
  | some name =>
    let sb := sb ++ "union " ++ name ++ " = "
    let sb :=
      match t.possibleTypes with
      | some possibleTypes => writeUnionMembersAux sb possibleTypes 0
      | none => sb
    sb ++ "\n\n"

/-- Models Rust's `str::starts_with` at the character level (the
byte-position-based `String.startsWith` of the Lean core library does not
evaluate inside the kernel). -/
def strStartsWith (s pre : String) : Bool :=
  pre.data.isPrefixOf s.data

/-- Embeds one iteration of the render loop inside `build`
(src/gql-inspect/src/lib.rs lines 252-271): skip when `name` is absent or
starts with `__`; dispatch on `kind`; an absent or unrecognised `kind`
contributes nothing to the output (the `_` arm only calls `eprintln!`). -/
def buildTypeSDL (implementsInterfaceMap : ImplementsMap) (sb : String)
    (t : GType) : String :=
  match t.name with
  | none => sb
  | some name =>
    if strStartsWith name "__" then sb
    else
      match t.kind with
      | none => sb
      | some kind =>
        if kind = "OBJECT" then writeObjectType sb t implementsInterfaceMap
        else if kind = "ENUM" then writeEnumType sb t
        else if kind = "SCALAR" then writeScalarType sb t
        else if kind = "INTERFACE" then writeInterfaceType sb t
        else if kind = "INPUT_OBJECT" then writeInputObjectType sb t
        else if kind = "UNION" then writeUnionType sb t
        else sb

/-- Embeds the `eprintln!` diagnostics the render loop of `build` emits for
one type (src/gql-inspect/src/lib.rs line 266): only a type that survives
the name checks and has a `Some` but unrecognised `kind` produces
`Unhandled type kind: <kind>`; an absent `kind` produces nothing. -/
def buildTypeDiagnostics (t : GType) : List String :=
  match t.name with
  | none => []
  | some name =>
    if strStartsWith name "__" then []
    else
      match t.kind with
      | none => []
      | some kind =>
        if kind = "OBJECT" ∨ kind = "ENUM" ∨ kind = "SCALAR" ∨
            kind = "INTERFACE" ∨ kind = "INPUT_OBJECT" ∨ kind = "UNION" then []
        else ["Unhandled type kind: " ++ kind]

/-- Embeds `GQLIntrospector::build` (src/gql-inspect/src/lib.rs lines
245-279).  The outer `if let Some(introspection_result)` guards the whole
body, so when the result is `None` the function falls through to
`Ok(self)` with the schema string unchanged; the inner
`match &self.introspection_result` re-examines the same field, making its
`None => Err("Introspection result is missing")` arm unreachable.  `none`
models a panic propagating out of `build_implements_interface_map`. -/
def build (self : GQLIntrospector) : Option (Except String GQLIntrospector) :=
  let sb := self.schema
  match self.introspectionResult with
  | none => some (.ok { self with schema := sb })
  | some introspectionResult =>
    match buildImplementsInterfaceMap introspectionResult with
    | none => none
    | some implementsIfaceMap =>
      let sb := introspectionResult.schema.types.foldl
        (buildTypeSDL implementsIfaceMap) sb
      some (.ok { self with schema := sb })

/-- Embeds `GQLIntrospector::write` (src/gql-inspect/src/lib.rs lines
429-438).  The length-zero check precedes `File::create`, so on error no
file operation happens at all; on success the file at `filePath` receives
exactly `self.schema.as_bytes()`, modelled by returning the path paired
with the verbatim text. -/
def write (self : GQLIntrospector) (filePath : String) :
    Except String (String × String) :=
  if self.schema.length = 0 then
    .error "No introspection result available to write"
  else
    .ok (filePath, self.schema)

/-- The schema string `build` produces, with the headers projected away
(used to compare two runs of `build`). -/
def buildSchemaResult (self : GQLIntrospector) : Option (Except String String) :=
  (build self).map (fun e => e.map GQLIntrospector.schema)

/-- The schema string produced by running `build` on the given top-level
types, starting from an empty accumulated schema; `none` when `build`
panics or returns an error. -/
def builtSchemaString (ts : List GType) : Option String :=
  match build { headers := [], introspectionResult := some { schema := { types := ts } },
                schema := "" } with
  | some (.ok i) => some i.schema
  | _ => none

/-- Whether `pat` occurs as an infix of the character list, checked at
every suffix. -/
def occursAt (pat : List Char) : List Char → Bool
  | [] => pat.isEmpty
  | c :: rest => pat.isPrefixOf (c :: rest) || occursAt pat rest

/-- Whether `pat` occurs in `s` as a substring. -/
def strContains (s pat : String) : Bool :=
  occursAt pat.data s.data

/-- The interface names a single type declares, reading absent lists as
empty and absent names as `""` (the latter never arises under the
hypotheses of the theorems that use this). -/
def ifaceDeclNames (t : GType) : List String :=
  (t.interfaces.getD []).map (fun i => (GType.name i).getD "")

/-- The in-declaration-order concatenation of the interface names declared
by the input types named `n` — the reference value for the
implements-index. -/
def declaredIfaceNames (types : List GType) (n : String) : List String :=
  types.foldr (fun t acc => if t.name = some n then ifaceDeclNames t ++ acc else acc) []

/-- Append a batch of values to an optional entry: appending nothing
leaves the entry as it was (in particular still absent). -/
def optAppend (o : Option (List String)) (vs : List String) : Option (List String) :=
  match o, vs with
  | o, [] => o
  | none, vs => some vs
  | some u, vs => some (u ++ vs)

/-- Iterated `mapPush` of a batch of values under one key. -/
def pushAll (m : ImplementsMap) (k : String) : List String → ImplementsMap
  | [] => m
  | v :: rest => pushAll (mapPush m k v) k rest

/-- The no-panic precondition for one type in
`build_implements_interface_map`: if its `interfaces` list is present and
non-empty, the type has a name and every listed interface has a name. -/
def ifaceWellNamedB (t : GType) : Bool :=
  match t.interfaces with
  | some (i :: rest) =>
    (GType.name t).isSome && (i :: rest).all (fun j => (GType.name j).isSome)
  | _ => true

/-- The text `write_field` emits for one argument: the argument's name
followed by the formatting of `ft` — which the source fixes to the
enclosing field's own return type, never the argument's declared type. -/
def argText (ft : GType) (a : GField) : String :=
  match a.name with
  | some argName => argName ++ ": " ++ formatType ft
  | none => ""

/-- The argument texts after the first, each preceded by the `", "`
separator. -/
def argTailText (ft : GType) : List GField → String
  | [] => ""
  | b :: rest => ", " ++ argText ft b ++ argTailText ft rest

/-- The full argument-list text between the parentheses. -/
def renderArgList (ft : GType) : List GField → String
  | [] => ""
  | a :: rest => argText ft a ++ argTailText ft rest

/-- One `", "` separator per argument after the first — all that remains
between the parentheses when the enclosing field has no `field_type`. -/
def argSeps : List GField → String
  | [] => ""
  | _ :: rest => ", " ++ argSeps rest

/-- Wrapping step of `format_type` for a modifier kind. -/
def modifierWrap (k : String) (s : String) : String :=
  if k = "LIST" then "[" ++ s ++ "]" else s ++ "!"

/-- A modifier chain four levels deep whose innermost node carries only a
kind — the shape the fixed three-level introspection query produces for a
type expression nested beyond its unwrap depth. -/
def chain4 (k0 k1 k2 k3 : String) : GType :=
  tyRef (some k0) none
    (some (tyRef (some k1) none
      (some (tyRef (some k2) none
        (some (tyRef (some k3) none none))))))

/-- Concrete fixture: a scalar type reference. -/
def scalarRef (n : String) : GType :=
  tyRef (some "SCALAR") (some n) none

/-- Concrete fixture: an OBJECT type with the given fields. -/
def mkObj (name : String) (fields : List GField) : GType :=
  .mk (some "OBJECT") (some name) none (some fields) none none none none none

/-- Concrete fixture: a field with the given return type and arguments. -/
def mkFld (name : String) (ft : Option GType) (args : Option (List GField)) : GField :=
  .mk (some name) none ft none none none args

/-- Fixture for C4: `NON_NULL(LIST(NON_NULL(SCALAR "String")))`. -/
def nnListNnString : GType :=
  tyRef (some "NON_NULL") none
    (some (tyRef (some "LIST") none
      (some (tyRef (some "NON_NULL") none
        (some (scalarRef "String"))))))

/-- Fixture for C6: an object type referencing `__Schema` in a field. -/
def c6queryT : GType :=
  mkObj "Query" [mkFld "s" (some (tyRef (some "OBJECT") (some "__Schema") none)) none]

/-- Fixture for C6: a top-level introspection-internal type. -/
def c6schemaT : GType :=
  mkObj "__Schema" []

/-- Fixture for C6: a schema holding both. -/
def c6types : List GType :=
  [c6queryT, c6schemaT]

/-- Fixture for C2's panic: a type with a non-empty `interfaces` list but
no `name`. -/
def c2panicT : GType :=
  .mk (some "OBJECT") none none none none
    (some [tyRef (some "INTERFACE") (some "I") none]) none none none

/-- Fixture for C2's happy path: type `A` implementing `I1` and `I2`. -/
def c2implT : GType :=
  .mk (some "OBJECT") (some "A") none none none
    (some [tyRef (some "INTERFACE") (some "I1") none,
           tyRef (some "INTERFACE") (some "I2") none]) none none none

/-- Fixture for C2's happy path: a type declaring no interfaces. -/
def c2plainT : GType :=
  mkObj "B" []

/-- Fixture for C3: an argument declaring its own scalar type. -/
def c3argA : GField :=
  mkFld "a" (some (scalarRef "Int")) none

/-- Fixture for C3: a second argument declaring another scalar type. -/
def c3argB : GField :=
  mkFld "b" (some (scalarRef "Bool")) none

/-- Fixture for C3: the field's own return type. -/
def c3ret : GType :=
  scalarRef "String"

/-- Fixture for C3: a field of return type `String` whose arguments
declare types `Int` and `Bool`. -/
def c3field : GField :=
  mkFld "f" (some c3ret) (some [c3argA, c3argB])

/-- Fixture for C8: a type whose `kind` is absent. -/
def c8noKindT : GType :=
  .mk none (some "Mystery") none none none none none none none

/-- Fixture for C8: a type with a present but unrecognised `kind`. -/
def c8futureT : GType :=
  .mk (some "FUTURE_KIND") (some "Odd") none none none none none none none

/-- Fixture for C10: a field with one argument and no `field_type`. -/
def c10field : GField :=
  mkFld "f" none (some [mkFld "a" (some (scalarRef "Int")) none])

/-- Fixture for C9: the two-object schema of the spec's Scenario A. -/
def scenarioA : IntrospectionResult :=
  { schema := { types :=
      [mkObj "Content" [mkFld "viewer" (some (tyRef (some "OBJECT") (some "User") none)) none],
       mkObj "User" [mkFld "name" (some (scalarRef "String")) none]] } }

/-- C1: calling `build` on an introspector whose introspection result is
`None` does NOT surface the Missing-result error: the outer
`if let Some(..)` skips the whole body (including the unreachable
`Err("Introspection result is missing")` arm) and the call returns `Ok`
with the schema string unchanged.  This evaluates the code at the failing
input of the claim. -/
theorem C1_build_none_returns_ok (hdrs : List (String × String)) (s : String) :
    build { headers := hdrs, introspectionResult := none, schema := s } =
      some (.ok { headers := hdrs, introspectionResult := none, schema := s }) :=
  rfl

/-- C4: `format_type` satisfies the recursive contract: with an `ofType`,
the inner formatting is wrapped in `[...]` for LIST, suffixed `!` for
NON_NULL, and passed through unchanged for any other (or absent) kind;
with no `ofType` but a name, the name is returned verbatim; with neither,
the empty string is returned; and the two known shapes round-trip:
`NON_NULL(LIST(NON_NULL(SCALAR "String")))` formats to `[String!]!` and
`SCALAR "Int"` to `Int`. -/
theorem C4_formatType_contract :
    (∀ t inner, GType.ofType t = some inner →
      formatType t =
        if GType.kind t = some "LIST" then "[" ++ formatType inner ++ "]"
        else if GType.kind t = some "NON_NULL" then formatType inner ++ "!"
        else formatType inner) ∧
    (∀ t n, GType.ofType t = none → GType.name t = some n → formatType t = n) ∧
    (∀ t, GType.ofType t = none → GType.name t = none → formatType t = "") ∧
    formatType nnListNnString = "[String!]!" ∧
    formatType (scalarRef "Int") = "Int" := by
  refine ⟨?_, ?_, ?_, by decide, by decide⟩
  · intro t inner h
    cases t with
    | mk k nm d f i ifs e p o =>
      simp only [GType.ofType] at h
      subst h
      simp [formatType, GType.kind]
  · intro t n ho hn
    cases t with
    | mk k nm d f i ifs e p o =>
      simp only [GType.ofType] at ho
      simp only [GType.name] at hn
      subst ho; subst hn
      simp [formatType]
  · intro t ho hn
    cases t with
    | mk k nm d f i ifs e p o =>
      simp only [GType.ofType] at ho
      simp only [GType.name] at hn
      subst ho; subst hn
      simp [formatType]

/-- Witness for C4: instantiating the first branch of the contract at the
concrete reference `LIST(SCALAR "Int")` and evaluating. -/
theorem C4_formatType_contract_witness :
    GType.ofType (tyRef (some "LIST") none (some (scalarRef "Int"))) =
      some (scalarRef "Int") ∧
    formatType (tyRef (some "LIST") none (some (scalarRef "Int"))) = "[Int]" := by
  refine ⟨rfl, ?_⟩
  rw [C4_formatType_contract.1 (tyRef (some "LIST") none (some (scalarRef "Int")))
    (scalarRef "Int") rfl]
  decide

/-- C5, counterexample: the 4-level modifier chain
`NON_NULL(LIST(NON_NULL(LIST)))` whose innermost node was truncated by the
fixed unwrap depth (no `ofType`, no `name`) does NOT format to the empty
string: only the innermost node degrades to `""`; the outer wrappers still
apply, yielding `"[!]!"`. -/
theorem C5_counterexample :
    formatType (chain4 "NON_NULL" "LIST" "NON_NULL" "LIST") = "[!]!" ∧
    formatType (chain4 "NON_NULL" "LIST" "NON_NULL" "LIST") ≠ "" := by
  decide

/-- C5, amended: for a modifier chain four levels deep truncated at the
fixed unwrap depth, the innermost node (no `ofType`, no `name`) formats to
the empty string, and the whole reference formats without any error to the
three outer modifier wrappers applied around that empty string — the
innermost node's own kind never gets to wrap anything. -/
theorem C5_amended (k0 k1 k2 k3 : String)
    (h0 : k0 = "LIST" ∨ k0 = "NON_NULL")
    (h1 : k1 = "LIST" ∨ k1 = "NON_NULL")
    (h2 : k2 = "LIST" ∨ k2 = "NON_NULL")
    (h3 : k3 = "LIST" ∨ k3 = "NON_NULL") :
    formatType (tyRef (some k3) none none) = "" ∧
    formatType (chain4 k0 k1 k2 k3) =
      modifierWrap k0 (modifierWrap k1 (modifierWrap k2 "")) := by
  rcases h0 with rfl | rfl <;> rcases h1 with rfl | rfl <;>
    rcases h2 with rfl | rfl <;> rcases h3 with rfl | rfl <;> exact (by decide)

/-- Witness for C5's amended statement at the concrete chain
`NON_NULL(LIST(NON_NULL(LIST)))`. -/
theorem C5_amended_witness :
    formatType (tyRef (some "LIST") none none) = "" ∧
    formatType (chain4 "NON_NULL" "LIST" "NON_NULL" "LIST") =
      modifierWrap "NON_NULL" (modifierWrap "LIST" (modifierWrap "NON_NULL" "")) :=
  C5_amended "NON_NULL" "LIST" "NON_NULL" "LIST"
    (Or.inr rfl) (Or.inl rfl) (Or.inr rfl) (Or.inl rfl)

/-- C6, counterexample: `build` only skips `__`-prefixed types as
top-level definitions; it does not filter references to them.  With the
top-level type `__Schema` present and another object's field typed
`__Schema`, the rendered SDL contains a line referencing `__Schema`. -/
theorem C6_counterexample :
    GType.name c6schemaT = some "__Schema" ∧
    strStartsWith "__Schema" "__" = true ∧
    builtSchemaString c6types = some "type Query \x7b\n  s: __Schema\n\x7d\n\n" ∧
    strContains "type Query \x7b\n  s: __Schema\n\x7d\n\n" "__Schema" = true := by
  decide

/-- C6, amended: a top-level type whose name starts with `__` is skipped
by the render loop and contributes nothing of its own to the output
(references to `__`-prefixed names from other types' fields are not
filtered and may still appear). -/
theorem C6_amended (m : ImplementsMap) (sb : String) (t : GType) (n : String)
    (hn : GType.name t = some n) (hpre : strStartsWith n "__" = true) :
    buildTypeSDL m sb t = sb := by
  cases t with
  | mk k nm d f i ifs e p o =>
    simp only [GType.name] at hn
    subst hn
    simp [buildTypeSDL, GType.name, hpre]

/-- Witness for C6's amended statement: the concrete `__Schema` type
contributes nothing. -/
theorem C6_amended_witness :
    GType.name c6schemaT = some "__Schema" ∧
    strStartsWith "__Schema" "__" = true ∧
    buildTypeSDL [] "x" c6schemaT = "x" :=
  ⟨rfl, by decide, C6_amended [] "x" c6schemaT "__Schema" rfl (by decide)⟩

/-- C7: `write` fails with the Empty-output error (the code's message is
`"No introspection result available to write"`) exactly when the
accumulated schema string is empty — the check precedes `File::create`, so
no file is created on that path — and on a non-empty schema it hands the
file-write the verbatim schema bytes at the given path. -/
theorem C7_write_empty_guard (self : GQLIntrospector) (filePath : String) :
    (self.schema = "" →
      write self filePath = .error "No introspection result available to write") ∧
    (self.schema ≠ "" →
      write self filePath = .ok (filePath, self.schema)) := by
  constructor
  · intro h
    simp [write, h]
  · intro h
    have hlen : self.schema.length ≠ 0 := by
      intro hz
      apply h
      cases hs : self.schema with
      | mk data =>
        cases data with
        | nil => rfl
        | cons c cs => rw [hs] at hz; simp [String.length] at hz
    simp [write, hlen]

/-- Witness for C7 at concrete introspectors: the empty schema errors, a
non-empty schema is passed through verbatim. -/
theorem C7_write_empty_guard_witness :
    write { headers := [], introspectionResult := none, schema := "" } "out.graphql" =
      .error "No introspection result available to write" ∧
    write { headers := [], introspectionResult := none, schema := "type Q" } "out.graphql" =
      .ok ("out.graphql", "type Q") :=
  ⟨(C7_write_empty_guard _ _).1 rfl, (C7_write_empty_guard _ _).2 (by decide)⟩

/-- C8, counterexample: a top-level type whose `kind` is absent is skipped
silently — it contributes nothing to the output AND produces no
diagnostic, contradicting the claim that such a type is "skipped with a
diagnostic" (only a present-but-unrecognised kind triggers the
`eprintln!`). -/
theorem C8_counterexample :
    GType.kind c8noKindT = none ∧
    buildTypeSDL [] "x" c8noKindT = "x" ∧
    buildTypeDiagnostics c8noKindT = [] := by
  decide

/-- C8, amended: a type whose `kind` is absent is skipped silently (no
output, no diagnostic); a type whose `kind` is present but not one of the
six named kinds is skipped with the diagnostic `Unhandled type kind:
<kind>` and contributes nothing; and the render loop itself never fails —
whenever the implements-map pass returns, `build` returns `Ok`. -/
theorem C8_amended (m : ImplementsMap) (sb : String) (t : GType) (n : String)
    (hn : GType.name t = some n) (hpre : strStartsWith n "__" = false) :
    (GType.kind t = none → buildTypeSDL m sb t = sb ∧ buildTypeDiagnostics t = []) ∧
    (∀ k, GType.kind t = some k →
      k ≠ "OBJECT" → k ≠ "ENUM" → k ≠ "SCALAR" → k ≠ "INTERFACE" →
      k ≠ "INPUT_OBJECT" → k ≠ "UNION" →
      buildTypeSDL m sb t = sb ∧
      buildTypeDiagnostics t = ["Unhandled type kind: " ++ k]) ∧
    (∀ hdrs r s m2, buildImplementsInterfaceMap r = some m2 →
      build { headers := hdrs, introspectionResult := some r, schema := s } =
        some (.ok { headers := hdrs, introspectionResult := some r,
                    schema := r.schema.types.foldl (buildTypeSDL m2) s })) := by
  refine ⟨?_, ?_, ?_⟩
  · intro hk
    cases t with
    | mk tk nm d f i ifs e p o =>
      simp only [GType.name] at hn
      simp only [GType.kind] at hk
      subst hn; subst hk
      constructor
      · simp [buildTypeSDL, GType.name, GType.kind, hpre]
      · simp [buildTypeDiagnostics, GType.name, GType.kind, hpre]
  · intro k hk h1 h2 h3 h4 h5 h6
    cases t with
    | mk tk nm d f i ifs e p o =>
      simp only [GType.name] at hn
      simp only [GType.kind] at hk
      subst hn; subst hk
      constructor
      · simp [buildTypeSDL, GType.name, GType.kind, hpre, h1, h2, h3, h4, h5, h6]
      · simp [buildTypeDiagnostics, GType.name, GType.kind, hpre, h1, h2, h3, h4, h5, h6]
  · intro hdrs r s m2 hm2
    simp [build, hm2]

/-- Witness for C8's amended statement: the concrete unrecognised kind
`FUTURE_KIND` contributes nothing but leaves a diagnostic, and `build`
returns `Ok` on a schema containing it. -/
theorem C8_amended_witness :
    GType.name c8futureT = some "Odd" ∧
    strStartsWith "Odd" "__" = false ∧
    GType.kind c8futureT = some "FUTURE_KIND" ∧
    (buildTypeSDL [] "x" c8futureT = "x" ∧
      buildTypeDiagnostics c8futureT = ["Unhandled type kind: " ++ "FUTURE_KIND"]) ∧
    build { headers := [], introspectionResult := some { schema := { types := [c8futureT] } },
            schema := "" } =
      some (.ok { headers := [], introspectionResult := some { schema := { types := [c8futureT] } },
                  schema := [c8futureT].foldl (buildTypeSDL []) "" }) := by
  refine ⟨rfl, by decide, rfl, ?_, ?_⟩
  · exact (C8_amended [] "x" c8futureT "Odd" rfl (by decide)).2.1 "FUTURE_KIND" rfl
      (by decide) (by decide) (by decide) (by decide) (by decide) (by decide)
  · exact (C8_amended [] "x" c8futureT "Odd" rfl (by decide)).2.2 []
      { schema := { types := [c8futureT] } } "" [] rfl

/-- C9: rendering is deterministic — two runs of `build` on equal
introspection results, each starting from an empty schema string (even
with different header sets, which the renderer never reads), produce the
same outcome and in particular byte-identical schema strings. -/
theorem C9_build_deterministic (hdrs1 hdrs2 : List (String × String))
    (r1 r2 : IntrospectionResult) (h : r1 = r2) :
    buildSchemaResult { headers := hdrs1, introspectionResult := some r1, schema := "" } =
    buildSchemaResult { headers := hdrs2, introspectionResult := some r2, schema := "" } := by
  subst h
  simp only [buildSchemaResult, build]
  cases buildImplementsInterfaceMap r1 <;> simp [Except.map]

/-- Witness for C9 at the spec's Scenario A schema, with two different
header sets. -/
theorem C9_build_deterministic_witness :
    buildSchemaResult { headers := [("Authorization", "Bearer t")],
                        introspectionResult := some scenarioA, schema := "" } =
    buildSchemaResult { headers := [], introspectionResult := some scenarioA,
                        schema := "" } :=
  C9_build_deterministic [("Authorization", "Bearer t")] [] scenarioA scenarioA rfl

theorem mapGet_mapPush (m : ImplementsMap) (k v n : String) :
    mapGet (mapPush m k v) n =
      if n = k then some ((mapGet m k).getD [] ++ [v]) else mapGet m n := by
  induction m with
  | nil =>
    by_cases h : n = k
    · subst h; simp [mapPush, mapGet]
    · simp [mapPush, mapGet, h, Ne.symm h]
  | cons hd rest ih =>
    obtain ⟨k2, vs⟩ := hd
    by_cases h1 : k2 = k
    · subst h1
      by_cases h2 : n = k2
      · subst h2; simp [mapPush, mapGet]
      · simp [mapPush, mapGet, h2, Ne.symm h2]
    · by_cases h2 : k2 = n
      · subst h2
        simp [mapPush, mapGet, h1, Ne.symm h1]
      · simp [mapPush, mapGet, h1, h2, ih]

theorem optAppend_push (g : Option (List String)) (v : String) (rest : List String) :
    optAppend (some ((g.getD []) ++ [v])) rest = optAppend g (v :: rest) := by
  cases g <;> cases rest <;> simp [optAppend]

theorem optAppend_empty (g : Option (List String)) : optAppend g [] = g := by
  cases g <;> simp [optAppend]

theorem optAppend_assoc (g : Option (List String)) (u v : List String) :
    optAppend (optAppend g u) v = optAppend g (u ++ v) := by
  cases g <;> cases u <;> cases v <;> simp [optAppend]

theorem mapGet_pushAll (vs : List String) (m : ImplementsMap) (k n : String) :
    mapGet (pushAll m k vs) n =
      if n = k then optAppend (mapGet m k) vs else mapGet m n := by
  induction vs generalizing m with
  | nil =>
    by_cases h : n = k <;> simp [pushAll, optAppend_empty, h]
  | cons v rest ih =>
    rw [pushAll, ih (mapPush m k v)]
    have hk : mapGet (mapPush m k v) k = some ((mapGet m k).getD [] ++ [v]) := by
      rw [mapGet_mapPush]; simp
    by_cases h : n = k
    · rw [if_pos h, if_pos h, hk, optAppend_push]
    · rw [if_neg h, if_neg h, mapGet_mapPush, if_neg h]

theorem pushIfaceEntries_eq (l : List GType) (m : ImplementsMap) (tn : String)
    (h : ∀ i ∈ l, (GType.name i).isSome = true) :
    pushIfaceEntries m (some tn) l =
      some (pushAll m tn (l.map (fun i => (GType.name i).getD ""))) := by
  induction l generalizing m with
  | nil => rfl
  | cons i rest ih =>
    obtain ⟨nm, hnm⟩ := Option.isSome_iff_exists.mp (h i (by simp))
    simp only [pushIfaceEntries, hnm]
    rw [ih (mapPush m tn nm) (fun j hj => h j (by simp [hj]))]
    simp [pushAll, hnm]

theorem buildMapAux_spec (types : List GType) (m : ImplementsMap)
    (h : ∀ t ∈ types, ifaceWellNamedB t = true) :
    ∃ m2, buildImplementsInterfaceMapAux types m = some m2 ∧
      ∀ n, mapGet m2 n = optAppend (mapGet m n) (declaredIfaceNames types n) := by
  induction types generalizing m with
  | nil =>
    exact ⟨m, rfl, fun n => by simp [declaredIfaceNames, optAppend_empty]⟩
  | cons t rest ih =>
    have hrest : ∀ t2 ∈ rest, ifaceWellNamedB t2 = true :=
      fun t2 ht2 => h t2 (by simp [ht2])
    have hdecl : ∀ n, declaredIfaceNames (t :: rest) n =
        (if GType.name t = some n then ifaceDeclNames t ++ declaredIfaceNames rest n
         else declaredIfaceNames rest n) := by
      intro n; rfl
    cases hifs : t.interfaces with
    | none =>
      obtain ⟨m2, hm2, hspec⟩ := ih m hrest
      refine ⟨m2, ?_, fun n => ?_⟩
      · simp only [buildImplementsInterfaceMapAux, hifs]
        exact hm2
      · rw [hspec n, hdecl n]
        have hd0 : ifaceDeclNames t = [] := by simp [ifaceDeclNames, hifs]
        rw [hd0]
        by_cases hname : GType.name t = some n <;> simp [hname]
    | some ifaces =>
      cases ifaces with
      | nil =>
        obtain ⟨m2, hm2, hspec⟩ := ih m hrest
        refine ⟨m2, ?_, fun n => ?_⟩
        · simp only [buildImplementsInterfaceMapAux, hifs, pushIfaceEntries]
          exact hm2
        · rw [hspec n, hdecl n]
          have hd0 : ifaceDeclNames t = [] := by simp [ifaceDeclNames, hifs]
          rw [hd0]
          by_cases hname : GType.name t = some n <;> simp [hname]
      | cons i l2 =>
        have hw : ifaceWellNamedB t = true := h t (by simp)
        rw [ifaceWellNamedB, hifs] at hw
        simp only [Bool.and_eq_true, List.all_eq_true] at hw
        obtain ⟨htn, hall⟩ := hw
        obtain ⟨tn, htn2⟩ := Option.isSome_iff_exists.mp htn
        have hpush := pushIfaceEntries_eq (i :: l2) m tn hall
        obtain ⟨m2, hm2, hspec⟩ := ih (pushAll m tn ((i :: l2).map
          (fun j => (GType.name j).getD ""))) hrest
        refine ⟨m2, ?_, fun n => ?_⟩
        · simp only [buildImplementsInterfaceMapAux, hifs, htn2, hpush]
          exact hm2
        · rw [hspec n, mapGet_pushAll, hdecl n, htn2]
          have hnames : ifaceDeclNames t =
              (i :: l2).map (fun j => (GType.name j).getD "") := by
            simp [ifaceDeclNames, hifs]
          by_cases hn : n = tn
          · rw [if_pos hn, if_pos (by rw [hn]), optAppend_assoc, hnames, hn]
          · have hn2 : ¬ (some tn = some n) := fun hc => hn (Option.some.inj hc).symm
            rw [if_neg hn, if_neg hn2]

/-- C2, counterexample: `build_implements_interface_map` panics (unwraps
`None`) on a type whose `interfaces` list is present and non-empty but
whose `name` is absent — it is not skipped silently, the whole build
fails. -/
theorem C2_counterexample :
    GType.name c2panicT = none ∧
    GType.interfaces c2panicT = some [tyRef (some "INTERFACE") (some "I") none] ∧
    buildImplementsInterfaceMap { schema := { types := [c2panicT] } } = none :=
  ⟨rfl, rfl, rfl⟩

/-- C2, amended: provided every type with a present non-empty `interfaces`
list has a `name` and every listed interface has a `name`,
`build_implements_interface_map` never fails, and for every name `n` the
returned map's entry at `n` is the in-declaration-order concatenation of
the interface names declared by the input types named `n` — the entry
being absent (not an empty sequence) when that concatenation is empty, so
types with no `interfaces` field or an empty one are absent from the map. -/
theorem C2_amended (r : IntrospectionResult)
    (h : ∀ t ∈ r.schema.types, ifaceWellNamedB t = true) :
    (buildImplementsInterfaceMap r).isSome = true ∧
    ∀ n, (buildImplementsInterfaceMap r).bind (fun m => mapGet m n) =
      if declaredIfaceNames r.schema.types n = [] then none
      else some (declaredIfaceNames r.schema.types n) := by
  obtain ⟨m2, hm2, hspec⟩ := buildMapAux_spec r.schema.types [] h
  rw [buildImplementsInterfaceMap] at *
  refine ⟨by rw [hm2]; rfl, fun n => ?_⟩
  rw [hm2]
  show mapGet m2 n = _
  rw [hspec n]
  have hget : mapGet [] n = none := rfl
  rw [hget]
  cases declaredIfaceNames r.schema.types n <;> simp [optAppend]

/-- Witness for C2's amended statement at a concrete schema: type `A`
implements `I1 & I2` in declaration order, and type `B`, which declares no
interfaces, is absent from the map. -/
theorem C2_amended_witness :
    (buildImplementsInterfaceMap { schema := { types := [c2implT, c2plainT] } }).isSome
      = true ∧
    (buildImplementsInterfaceMap { schema := { types := [c2implT, c2plainT] } }).bind
      (fun m => mapGet m "A") = some ["I1", "I2"] ∧
    (buildImplementsInterfaceMap { schema := { types := [c2implT, c2plainT] } }).bind
      (fun m => mapGet m "B") = none := by
  have h := C2_amended { schema := { types := [c2implT, c2plainT] } }
    (by intro t ht; fin_cases ht <;> decide)
  refine ⟨h.1, ?_, ?_⟩
  · rw [h.2 "A"]; decide
  · rw [h.2 "B"]; decide

theorem writeArgsAux_some_pos (args : List GField) (sb : String) (ft : GType)
    (i : Nat) (hi : 0 < i) :
    writeArgsAux sb (some ft) args i = sb ++ argTailText ft args := by
  induction args generalizing sb i with
  | nil => simp [writeArgsAux, argTailText]
  | cons a rest ih =>
    rcases a with ⟨an, ad, aft, adv, adep, adr, aargs⟩
    cases an with
    | none =>
      simp only [writeArgsAux, GField.name, if_pos hi]
      rw [ih _ (i + 1) (Nat.succ_pos i)]
      simp [argTailText, argText, GField.name, String.append_assoc]
    | some nm =>
      simp only [writeArgsAux, GField.name, if_pos hi]
      rw [ih _ (i + 1) (Nat.succ_pos i)]
      simp [argTailText, argText, GField.name, String.append_assoc]

theorem writeArgsAux_some_zero (args : List GField) (sb : String) (ft : GType) :
    writeArgsAux sb (some ft) args 0 = sb ++ renderArgList ft args := by
  cases args with
  | nil => simp [writeArgsAux, renderArgList]
  | cons a rest =>
    rcases a with ⟨an, ad, aft, adv, adep, adr, aargs⟩
    cases an with
    | none =>
      simp only [writeArgsAux, GField.name, if_neg (by omega : ¬ (0 : Nat) > 0)]
      rw [writeArgsAux_some_pos rest _ ft 1 Nat.one_pos]
      simp [renderArgList, argText, GField.name, String.append_assoc]
    | some nm =>
      simp only [writeArgsAux, GField.name, if_neg (by omega : ¬ (0 : Nat) > 0)]
      rw [writeArgsAux_some_pos rest _ ft 1 Nat.one_pos]
      simp [renderArgList, argText, GField.name, String.append_assoc]

/-- C3: for a field with a non-empty argument list, every rendered
argument uses the enclosing field's own return type `ft`: the emitted text
is `  <name>(<arg1>: <T>, ...): <T>` with `T = format_type(ft)` throughout
— `renderArgList` and `argText` read only each argument's name, never its
declared `field_type`, so the output is the same whatever types the
arguments declare. -/
theorem C3_args_use_field_return_type (sb : String) (f : GField) (n : String)
    (ft : GType) (args : List GField) (hn : GField.name f = some n)
    (hft : GField.fieldType f = some ft) (hargs : GField.args f = some args)
    (hne : args ≠ []) :
    writeField sb f =
      sb ++ "  " ++ n ++ "(" ++ renderArgList ft args ++ ")" ++ ": " ++
        formatType ft ++ "\n" := by
  cases f with
  | mk fn fd fft fdv fdep fdr fargs =>
    simp only [GField.name] at hn
    simp only [GField.fieldType] at hft
    simp only [GField.args] at hargs
    subst hn; subst hft; subst hargs
    simp only [writeField, GField.name, GField.args, GField.fieldType]
    rw [if_pos (List.length_pos.mpr hne)]
    rw [writeArgsAux_some_zero]

/-- Witness for C3 at a concrete field of return type `String` whose two
arguments declare the types `Int` and `Bool`: both arguments render as
`: String`. -/
theorem C3_args_use_field_return_type_witness :
    GField.name c3field = some "f" ∧
    GField.fieldType c3field = some c3ret ∧
    GField.args c3field = some [c3argA, c3argB] ∧
    GField.fieldType c3argA = some (scalarRef "Int") ∧
    GField.fieldType c3argB = some (scalarRef "Bool") ∧
    writeField "" c3field =
      "" ++ "  " ++ "f" ++ "(" ++ renderArgList c3ret [c3argA, c3argB] ++ ")" ++
        ": " ++ formatType c3ret ++ "\n" ∧
    writeField "" c3field = "  f(a: String, b: String): String\n" := by
  refine ⟨rfl, rfl, rfl, rfl, rfl, ?_, by decide⟩
  exact C3_args_use_field_return_type "" c3field "f" c3ret [c3argA, c3argB]
    rfl rfl rfl (List.cons_ne_nil _ _)

theorem writeArgsAux_none_pos (args : List GField) (sb : String)
    (i : Nat) (hi : 0 < i) :
    writeArgsAux sb none args i = sb ++ argSeps args := by
  induction args generalizing sb i with
  | nil => simp [writeArgsAux, argSeps]
  | cons a rest ih =>
    rcases a with ⟨an, ad, aft, adv, adep, adr, aargs⟩
    cases an with
    | none =>
      simp only [writeArgsAux, GField.name, if_pos hi]
      rw [ih _ (i + 1) (Nat.succ_pos i)]
      simp [argSeps, String.append_assoc]
    | some nm =>
      simp only [writeArgsAux, GField.name, if_pos hi]
      rw [ih _ (i + 1) (Nat.succ_pos i)]
      simp [argSeps, String.append_assoc]

theorem writeArgsAux_none_zero (a : GField) (rest : List GField) (sb : String) :
    writeArgsAux sb none (a :: rest) 0 = sb ++ argSeps rest := by
  rcases a with ⟨an, ad, aft, adv, adep, adr, aargs⟩
  cases an with
  | none =>
    simp only [writeArgsAux, GField.name, if_neg (by omega : ¬ (0 : Nat) > 0)]
    cases rest with
    | nil => simp [writeArgsAux, argSeps]
    | cons b rest2 =>
      rw [writeArgsAux_none_pos (b :: rest2) _ 1 Nat.one_pos]
  | some nm =>
    simp only [writeArgsAux, GField.name, if_neg (by omega : ¬ (0 : Nat) > 0)]
    cases rest with
    | nil => simp [writeArgsAux, argSeps]
    | cons b rest2 =>
      rw [writeArgsAux_none_pos (b :: rest2) _ 1 Nat.one_pos]

/-- C10, counterexample: a field with a present name, an absent
`field_type` and one argument appends `  f()`, not merely `  f` — the
parentheses (and, with more arguments, the `", "` separators) are still
emitted even though no argument text is. -/
theorem C10_counterexample :
    GField.name c10field = some "f" ∧
    GField.fieldType c10field = none ∧
    writeField "" c10field = "  f()" ∧
    "  f()" ≠ ("  f" : String) := by
  refine ⟨rfl, rfl, by decide, by decide⟩

/-- C10, amended: a field with an absent name appends nothing; a field
with a present name, an absent `field_type`, and absent or empty `args`
appends exactly `  <name>` — no colon, no type text, no trailing newline;
with `k ≥ 1` arguments it instead appends `  <name>(` followed by the
`k − 1` comma separators and `)`, still with no colon, no argument or type
text, and no newline. -/
theorem C10_amended (sb : String) (f : GField) :
    (GField.name f = none → writeField sb f = sb) ∧
    (∀ n, GField.name f = some n → GField.fieldType f = none →
      (GField.args f = none ∨ GField.args f = some []) →
      writeField sb f = sb ++ "  " ++ n) ∧
    (∀ n a rest, GField.name f = some n → GField.fieldType f = none →
      GField.args f = some (a :: rest) →
      writeField sb f = sb ++ "  " ++ n ++ "(" ++ argSeps rest ++ ")") := by
  refine ⟨?_, ?_, ?_⟩
  · intro hn
    cases f with
    | mk fn fd fft fdv fdep fdr fargs =>
      simp only [GField.name] at hn
      subst hn
      rfl
  · intro n hn hft hargs
    cases f with
    | mk fn fd fft fdv fdep fdr fargs =>
      simp only [GField.name] at hn
      simp only [GField.fieldType] at hft
      subst hn; subst hft
      rcases hargs with h | h <;>
        · simp only [GField.args] at h
          subst h
          rfl
  · intro n a rest hn hft hargs
    cases f with
    | mk fn fd fft fdv fdep fdr fargs =>
      simp only [GField.name] at hn
      simp only [GField.fieldType] at hft
      simp only [GField.args] at hargs
      subst hn; subst hft; subst hargs
      simp only [writeField, GField.name, GField.args, GField.fieldType]
      rw [if_pos (List.length_pos.mpr (List.cons_ne_nil a rest))]
      rw [writeArgsAux_none_zero]

/-- Witness for C10's amended statement: a nameless field appends nothing;
a name-only field appends `  g`; the one-argument, no-return-type field
appends `  f()`. -/
theorem C10_amended_witness :
    writeField "x" (GField.mk none none none none none none none) = "x" ∧
    writeField "x" (mkFld "g" none none) = "x" ++ "  " ++ "g" ∧
    writeField "x" c10field = "x" ++ "  " ++ "f" ++ "(" ++ argSeps [] ++ ")" := by
  refine ⟨?_, ?_, ?_⟩
  · exact (C10_amended "x" (GField.mk none none none none none none none)).1 rfl
  · exact (C10_amended "x" (mkFld "g" none none)).2.1 "g" rfl rfl (Or.inl rfl)
  · exact (C10_amended "x" c10field).2.2 "f"
      (mkFld "a" (some (scalarRef "Int")) none) [] rfl rfl rfl

end GQLInspect

